import Mathlib

/-!
Verification of the visqol-py measurement core (`visqol_py/visqol.py` and
`visqol_py/utils.py`).

The embedding mirrors the Python source: machine floats that influence
observable control flow (the resampler's output-length computation, which
Python evaluates in IEEE binary64) are modelled bit-faithfully by integer
arithmetic on (mantissa, exponent) pairs; sample values are modelled as
exact rationals, with the one lossy conversion of the decode paths — the
`astype(np.float32)` of an int32 sample before the 32-bit normalization,
which rounds to 24 significant bits — modelled explicitly (`fl32Int`).
The float32 conversions of the 8-, 16- and 24-bit paths are lossless
(values fit in 24 bits and the divisors are powers of two), so exact
rationals represent them faithfully.  Exceptions are modelled with
`Except`; Python's exception
classes and chaining (`raise ... from e`) are modelled by the `PyErr`
inductive.  Engine handles created by the native `VisqolApi` are modelled
as numeric identifiers allocated from a counter, and the number of
`Create` (Configure) calls made to the external engine is tracked in the
state.
-/

/-- Operating modes, from `class ViSQOLMode(Enum)`. -/
inductive ViSQOLMode where
  | audio
  | speech
deriving DecidableEq, Repr

/-- Python exception values as observed by this code: `wave.Error` raised by
`wave.open` on a malformed container, `ValueError` raised for an unsupported
sample width or a bad buffer size, and `RuntimeError` carrying its
`__cause__` (every modelled `RuntimeError` in the source is raised with
`raise RuntimeError(...) from e`, so the cause is always present). -/
inductive PyErr where
  | waveError : PyErr
  | valueError : PyErr
  | runtimeError : PyErr → PyErr
deriving DecidableEq, Repr

/- ---------- bit-faithful binary64 helpers (for the resampler length) ---------- -/

/-- Fueled bit-length helper; `bitsAux n n` is the number of binary digits of
`n` (the fuel `n` always suffices since `log2 n < n` for positive `n`). -/
def bitsAux : ℕ → ℕ → ℕ
  | 0, _ => 0
  | f + 1, n => if n = 0 then 0 else bitsAux f (n / 2) + 1

/-- Number of binary digits of a natural number. -/
def bits (n : ℕ) : ℕ := bitsAux n n

/-- Round `n / d` to the nearest integer, ties to even (IEEE default). -/
def roundNE (n d : ℕ) : ℕ :=
  let q := n / d
  let r := n % d
  if 2 * r < d then q
  else if d < 2 * r then q + 1
  else if q % 2 = 0 then q else q + 1

/-- Round the positive rational `a / b`, pre-scaled by `2 ^ s`, to a 53-bit
mantissa; renormalize if rounding overflows into the next binade.  The result
`(m, e)` denotes the value `m * 2 ^ e`. -/
def roundAt (a b : ℕ) (s : ℤ) : ℕ × ℤ :=
  let n := if 0 ≤ s then a * 2 ^ s.toNat else a
  let d := if 0 ≤ s then b else b * 2 ^ (-s).toNat
  let m := roundNE n d
  if m = 2 ^ 53 then (2 ^ 52, 1 - s) else (m, -s)

/-- Correctly-rounded IEEE binary64 value of the rational `a / b`
(as CPython's int/int true division produces), as a (mantissa, exponent)
pair with `2 ^ 52 ≤ mantissa < 2 ^ 53` for nonzero results.  Subnormals and
overflow are outside the range ever reached by this program's inputs. -/
def fl64Q (a b : ℕ) : ℕ × ℤ :=
  if a = 0 ∨ b = 0 then (0, 0)
  else
    let s0 : ℤ := 53 - ((bits a : ℤ) - (bits b : ℤ))
    let n0 := if 0 ≤ s0 then a * 2 ^ s0.toNat else a
    let d0 := if 0 ≤ s0 then b else b * 2 ^ (-s0).toNat
    let t := n0 / d0
    if t < 2 ^ 52 then roundAt a b (s0 + 1)
    else if 2 ^ 53 ≤ t then roundAt a b (s0 - 1)
    else roundAt a b s0

/-- binary64 product of two floats: exact integer product of the mantissas,
rounded back to 53 bits. -/
def fl64Mul (x y : ℕ × ℤ) : ℕ × ℤ :=
  let r := fl64Q (x.1 * y.1) 1
  (r.1, r.2 + x.2 + y.2)

/-- `int()` applied to a nonnegative float: floor of `m * 2 ^ e`. -/
def floatFloor (x : ℕ × ℤ) : ℕ :=
  if 0 ≤ x.2 then x.1 * 2 ^ x.2.toNat else x.1 / 2 ^ (-x.2).toNat

/-- Output length of `_resample_audio` / `resample_audio`:
`new_length = int(orig_length * (target_sr / orig_sr))`, evaluated exactly as
Python does (binary64 division, conversion of the int to binary64, binary64
multiplication, truncation). -/
def resampleLen (l r1 r2 : ℕ) : ℕ :=
  floatFloor (fl64Mul (fl64Q l 1) (fl64Q r2 r1))

/- ---------- the resampler (`_resample_audio` in visqol.py,
      `resample_audio` in utils.py; both are textually identical) ---------- -/

/-- Value of `np.linspace(0, l - 1, n)` at index `j` (exact rational). -/
def linVal (l n j : ℕ) : ℚ :=
  if n ≤ 1 then 0 else ((l : ℚ) - 1) * (j : ℚ) / ((n : ℚ) - 1)

/-- `np.interp(t, np.linspace(0, len a - 1, len a), a)`: piecewise-linear
interpolation of the samples `a` over the integer grid `0, 1, ..., len a - 1`,
clamped at both ends. -/
def interpAt (a : List ℚ) (t : ℚ) : ℚ :=
  if t ≤ 0 then a.headD 0
  else if ((a.length : ℚ) - 1) ≤ t then a.getLastD 0
  else
    let i := (⌊t⌋).toNat
    a.getD i 0 + (t - (i : ℚ)) * (a.getD (i + 1) 0 - a.getD i 0)

/-- `_resample_audio(audio, orig_sr, target_sr)`: identity when the rates
coincide, otherwise linear interpolation onto `new_length` evenly spaced
virtual indices covering `[0, orig_length - 1]`. -/
def resampleList (buf : List ℚ) (origSr targetSr : ℕ) : List ℚ :=
  if origSr = targetSr then buf
  else
    let n := resampleLen buf.length origSr targetSr
    (List.range n).map (fun j => interpAt buf (linVal buf.length n j))

/- ---------- WAV decoding (`_load_wav_file`, identical in visqol.py and
      utils.py) ---------- -/

/-- A parsed WAV container as the `wave` module reports it: header fields and
the raw byte payload that `readframes` draws from. -/
structure WavFile where
  nChannels : ℕ
  sampleWidth : ℕ
  sampleRate : ℕ
  nFrames : ℕ
  data : List ℕ
deriving DecidableEq, Repr

/-- A WAV byte source handed to `wave.open`: either a malformed container
(on which `wave.open` raises `wave.Error`) or a well-formed one. -/
inductive WavInput where
  | malformed
  | wellformed (w : WavFile)
deriving DecidableEq, Repr

/-- Little-endian unsigned integer value of a byte list. -/
def leU : List ℕ → ℕ
  | [] => 0
  | b :: rest => b + 256 * leU rest

/-- `int.from_bytes(bs, 'little', signed=True)`: little-endian
two's-complement signed value of a byte list. -/
def leS : List ℕ → ℤ
  | [] => 0
  | b :: rest =>
    if leU (b :: rest) < 2 ^ (8 * (b :: rest).length - 1) then (leU (b :: rest) : ℤ)
    else (leU (b :: rest) : ℤ) - 2 ^ (8 * (b :: rest).length)

/-- Split into adjacent pairs (layout of `np.frombuffer(raw, dtype=np.int16)`;
a trailing odd byte would be rejected before this is ever applied). -/
def chunks2 {α : Type} : List α → List (List α)
  | [] => []
  | [a] => [[a]]
  | a :: b :: rest => [a, b] :: chunks2 rest

/-- Split into adjacent triples, keeping a short final group, exactly like the
24-bit loop `for i in range(0, len(audio_bytes), 3)` slicing `bytes[i:i+3]`. -/
def chunks3 {α : Type} : List α → List (List α)
  | [] => []
  | [a] => [[a]]
  | [a, b] => [[a, b]]
  | a :: b :: c :: rest => [a, b, c] :: chunks3 rest

/-- Split into adjacent quadruples (layout of
`np.frombuffer(raw, dtype=np.int32)`). -/
def chunks4 {α : Type} : List α → List (List α)
  | [] => []
  | [a] => [[a]]
  | [a, b] => [[a, b]]
  | [a, b, c] => [[a, b, c]]
  | a :: b :: c :: d :: rest => [a, b, c, d] :: chunks4 rest

/-- Fueled fixed-size chunking used for the channel downmix reshape. -/
def chunksFuel {α : Type} (k : ℕ) : ℕ → List α → List (List α)
  | 0, _ => []
  | _, [] => []
  | f + 1, l => l.take k :: chunksFuel k f (l.drop k)

/-- Split a list into consecutive groups of `k` (rows of `reshape(-1, k)`). -/
def chunksOf {α : Type} (k : ℕ) (l : List α) : List (List α) :=
  chunksFuel k l.length l

/-- Round a natural number to 24 significant bits, nearest, ties to even:
the value `float32(n)` produces for integers in the int32 range. -/
def fl32Nat (n : ℕ) : ℕ :=
  if n < 2 ^ 24 then n
  else
    roundNE n (2 ^ (bits n - 24)) * 2 ^ (bits n - 24)

/-- `astype(np.float32)` applied to an int32 value: round the magnitude to 24
significant bits (lossy for magnitudes above 2^24). -/
def fl32Int (z : ℤ) : ℤ :=
  if z < 0 then -((fl32Nat (-z).toNat : ℕ) : ℤ) else ((fl32Nat z.toNat : ℕ) : ℤ)

/-- Per-width sample conversion of `_load_wav_file`: 8-bit unsigned bytes via
`(value - 128) / 128.0`; 16-bit signed little-endian via `value / 32768.0`
(`np.frombuffer` demands an even byte count); 24-bit as three little-endian
two's-complement bytes via `value / 8388608.0`; 32-bit signed little-endian
via `astype(np.float32)` then `/ 2147483648.0` — the float32 conversion
rounds the int32 value to 24 significant bits before the (exact) division by
2^31, and is modelled by `fl32Int`; the float32 conversions of the other
widths are lossless (all values fit in 24 bits, all divisors are powers of
two), so no rounding operator appears there.  Any other width raises
`ValueError`. -/
def decodeSamples (width : ℕ) (raw : List ℕ) : Except PyErr (List ℚ) :=
  if width = 1 then .ok (raw.map (fun (b : ℕ) => ((b : ℚ) - 128) / 128))
  else if width = 2 then
    if raw.length % 2 = 0 then
      .ok ((chunks2 raw).map (fun c => (leS c : ℚ) / 32768))
    else .error .valueError
  else if width = 3 then .ok ((chunks3 raw).map (fun c => (leS c : ℚ) / 8388608))
  else if width = 4 then
    if raw.length % 4 = 0 then
      .ok ((chunks4 raw).map (fun c => (fl32Int (leS c) : ℚ) / 2147483648))
    else .error .valueError
  else .error .valueError

/-- Row-wise `np.mean` after `reshape(-1, ch)`: per-frame arithmetic mean. -/
def downmixChunks (ch : ℕ) (xs : List ℚ) : List ℚ :=
  (chunksOf ch xs).map (fun c => c.sum / (ch : ℚ))

/-- The channel fold of `_load_wav_file`: stereo and multi-channel data are
downmixed by per-frame averaging (the reshape demands divisibility of the
sample count by the channel count); mono (and the degenerate `ch < 2` cases)
pass through. -/
def monoFold (ch : ℕ) (xs : List ℚ) : Except PyErr (List ℚ) :=
  if ch = 2 then
    if xs.length % 2 = 0 then .ok (downmixChunks 2 xs) else .error .valueError
  else if 2 < ch then
    if xs.length % ch = 0 then .ok (downmixChunks ch xs) else .error .valueError
  else .ok xs

/-- Body of the `try` block of `_load_wav_file` on a successfully opened
file: read `n_frames` frames, convert by sample width, downmix to mono, and
return the samples with the header sample rate. -/
def load_wav_core (w : WavFile) : Except PyErr (List ℚ × ℕ) :=
  let raw := w.data.take (w.nFrames * w.nChannels * w.sampleWidth)
  match decodeSamples w.sampleWidth raw with
  | .error e => .error e
  | .ok xs =>
    match monoFold w.nChannels xs with
    | .error e => .error e
    | .ok ys => .ok (ys, w.sampleRate)

/-- `_load_wav_file`: a malformed container makes `wave.open` raise
`wave.Error`; every exception of the body is wrapped by
`raise RuntimeError(f"Failed to load WAV file ...") from e`. -/
def load_wav_file (i : WavInput) : Except PyErr (List ℚ × ℕ) :=
  match i with
  | .malformed => .error (.runtimeError .waveError)
  | .wellformed w =>
    match load_wav_core w with
    | .ok r => .ok r
    | .error e => .error (.runtimeError e)

/- ---------- sample-rate policy and engine state ---------- -/

/-- Default configured sample rate per mode (`_init_native`): 48000 for
AUDIO, 16000 for SPEECH. -/
def defaultSampleRate (m : ViSQOLMode) : ℕ :=
  match m with
  | .audio => 48000
  | .speech => 16000

/-- `_get_target_sample_rate`: SPEECH keeps the original rate when it is at
least 16000 Hz and upsamples to 16000 Hz otherwise; AUDIO always targets
48000 Hz. -/
def get_target_sample_rate (m : ViSQOLMode) (originalSr : ℕ) : ℕ :=
  match m with
  | .speech => if 16000 ≤ originalSr then originalSr else 16000
  | .audio => 48000

/-- Observable state of a `ViSQOL` instance: its mode, the sample rate stored
in `self._config.audio.sample_rate`, the handle id of the `self._api`
instance created at construction, a fresh-handle allocator, and the number of
`VisqolApi.Create` (external Configure) calls made so far. -/
structure ViSQOLState where
  mode : ViSQOLMode
  configSampleRate : ℕ
  defaultApi : ℕ
  nextId : ℕ
  createCalls : ℕ
deriving DecidableEq, Repr

/-- State after `__init__`/`_init_native`: the default config holds the
mode's default sample rate and one engine instance has been created. -/
def initState (m : ViSQOLMode) : ViSQOLState :=
  { mode := m, configSampleRate := defaultSampleRate m, defaultApi := 0,
    nextId := 1, createCalls := 1 }

/-- `_get_api_for_sample_rate`: return `self._api` when the requested rate
matches the stored config's rate; otherwise build a fresh config (copying the
stored options) and create a brand-new `VisqolApi`, which is returned without
being stored anywhere. -/
def get_api_for_sample_rate (s : ViSQOLState) (sampleRate : ℕ) : ℕ × ViSQOLState :=
  if sampleRate = s.configSampleRate then (s.defaultApi, s)
  else (s.nextId, { s with nextId := s.nextId + 1, createCalls := s.createCalls + 1 })

/- ---------- the Measurer (`measure` / `_measure_native`) ---------- -/

/-- One argument of `measure`: a pre-decoded numpy array or a WAV file. -/
inductive AudioInput where
  | array (samples : List ℚ)
  | file (src : WavInput)
deriving DecidableEq, Repr

/-- `_load_audio_with_sr`: numpy arrays are assumed to sit at the mode's
default rate; files are decoded, their target rate is derived from their own
original rate, and they are resampled when the two differ. -/
def load_audio_with_sr (s : ViSQOLState) (a : AudioInput) : Except PyErr (List ℚ × ℕ) :=
  match a with
  | .array xs => .ok (xs, defaultSampleRate s.mode)
  | .file src =>
    match load_wav_file src with
    | .error e => .error e
    | .ok (xs, origSr) =>
      let target := get_target_sample_rate s.mode origSr
      .ok (if origSr ≠ target then resampleList xs origSr target else xs, target)

/-- What `_measure_native` hands to the external engine: the two prepared
buffers, the sample rate each ended up at, and the handle `Measure` is called
on.  The engine's numeric reply is outside this core. -/
structure MeasureTrace where
  refBuf : List ℚ
  degBuf : List ℚ
  refSr : ℕ
  degSr : ℕ
  api : ℕ
deriving DecidableEq, Repr

/-- `_measure_native`: load both sides, pick the engine instance from the
reference side's resulting sample rate, and invoke `Measure`. -/
def measure_native (s : ViSQOLState) (ref deg : AudioInput) :
    Except PyErr (MeasureTrace × ViSQOLState) :=
  match load_audio_with_sr s ref with
  | .error e => .error e
  | .ok (refBuf, refSr) =>
    match load_audio_with_sr s deg with
    | .error e => .error e
    | .ok (degBuf, degSr) =>
      let r := get_api_for_sample_rate s refSr
      .ok (⟨refBuf, degBuf, refSr, degSr, r.1⟩, r.2)

/-- `measure_batch`: process the pairs in input order, collecting results; the
first failing `measure` call aborts the whole batch by re-raising a
`RuntimeError` chained to the underlying exception; no placeholder result is
ever synthesized. -/
def measure_batch (s : ViSQOLState) :
    List (AudioInput × AudioInput) → Except PyErr (List MeasureTrace × ViSQOLState)
  | [] => .ok ([], s)
  | (r, d) :: rest =>
    match measure_native s r d with
    | .error e => .error (.runtimeError e)
    | .ok (tr, s1) =>
      match measure_batch s1 rest with
      | .error e => .error e
      | .ok (trs, s2) => .ok (tr :: trs, s2)

/- ---------- WAV encoding (`_save_wav_file`, identical in both files) ---------- -/

/-- Truncation toward zero, as a C cast of a float to an integer performs
(`Int.tdiv` is truncated division and the denominator is positive). -/
def ratTruncZ (q : ℚ) : ℤ := Int.tdiv q.num (q.den : ℤ)

/-- Reinterpret an integer modulo `2 ^ 16` as a signed 16-bit value: the
wraparound `np.astype(np.int16)` applies to out-of-range inputs. -/
def toInt16 (z : ℤ) : ℤ :=
  if z % 65536 < 32768 then z % 65536 else z % 65536 - 65536

/-- `(audio_data * 32767).astype(np.int16)` on one sample: scale by 32767,
truncate toward zero, wrap into the signed 16-bit range. -/
def encodeSample (v : ℚ) : ℤ := toInt16 (ratTruncZ (v * 32767))

/-- `tobytes()` of one int16 sample: two little-endian bytes. -/
def le16Bytes (z : ℤ) : List ℕ :=
  let u := (z % 65536).toNat
  [u % 256, u / 256]

/-- A written WAV file: the header fields set by `_save_wav_file` and the
payload handed to `writeframes`. -/
structure WavOut where
  nChannels : ℕ
  sampleWidth : ℕ
  sampleRate : ℕ
  payload : List ℕ
deriving DecidableEq, Repr

/-- `_save_wav_file`: always mono (`setnchannels(1)`), 16-bit
(`setsampwidth(2)`), at the given rate, with the int16-converted samples
written little-endian. -/
def save_wav_file (buf : List ℚ) (sr : ℕ) : WavOut :=
  ⟨1, 2, sr, (buf.map (fun v => le16Bytes (encodeSample v))).flatten⟩

/-- Floor of a rational as integer division of numerator by (positive)
denominator (`Int` division is Euclidean, hence a floor here). -/
def ratFloorZ (q : ℚ) : ℤ := q.num / (q.den : ℤ)

/-- Spec-modelled encoder, following the words of the specification only (for
comparison with `encodeSample`): convert via `round(value * 32767)` (nearest
integer), then saturate to the signed 16-bit range. -/
def specRoundSaturate (v : ℚ) : ℤ :=
  max (-32768) (min 32767 (ratFloorZ (v * 32767 + 1 / 2)))

instance {ε α : Type} [DecidableEq ε] [DecidableEq α] : DecidableEq (Except ε α) :=
  fun x y =>
    match x, y with
    | .ok a, .ok b => decidable_of_iff (a = b) (by simp)
    | .error a, .error b => decidable_of_iff (a = b) (by simp)
    | .ok _, .error _ => isFalse (fun h => Except.noConfusion h)
    | .error _, .ok _ => isFalse (fun h => Except.noConfusion h)

/- ---------- helper lemmas ---------- -/

set_option maxRecDepth 200000

theorem linVal_one (n j : ℕ) : linVal 1 n j = 0 := by
  unfold linVal
  split <;> simp

theorem interpAt_zero (a : List ℚ) : interpAt a 0 = a.headD 0 := by
  unfold interpAt
  simp

theorem toInt16_bounds (z : ℤ) : -32768 ≤ toInt16 z ∧ toInt16 z ≤ 32767 := by
  unfold toInt16
  have h0 : 0 ≤ z % 65536 := Int.emod_nonneg z (by norm_num)
  have h1 : z % 65536 < 65536 := Int.emod_lt_of_pos z (by norm_num)
  split <;> omega

theorem chunks2_flat (ps : List (ℕ × ℕ)) :
    chunks2 ((ps.map (fun p => [p.1, p.2])).flatten) = ps.map (fun p => [p.1, p.2]) := by
  induction ps with
  | nil => rfl
  | cons p rest ih => simp [chunks2, ih]

theorem flat2_length (ps : List (ℕ × ℕ)) :
    ((ps.map (fun p => [p.1, p.2])).flatten).length = 2 * ps.length := by
  induction ps with
  | nil => rfl
  | cons p rest ih => simp [ih]; ring

theorem chunks3_flat (ts : List (ℕ × ℕ × ℕ)) :
    chunks3 ((ts.map (fun t => [t.1, t.2.1, t.2.2])).flatten) =
      ts.map (fun t => [t.1, t.2.1, t.2.2]) := by
  induction ts with
  | nil => rfl
  | cons t rest ih => simp [chunks3, ih]

theorem flat3_length (ts : List (ℕ × ℕ × ℕ)) :
    ((ts.map (fun t => [t.1, t.2.1, t.2.2])).flatten).length = 3 * ts.length := by
  induction ts with
  | nil => rfl
  | cons t rest ih => simp [ih]; ring

theorem chunks4_flat (qs : List (ℕ × ℕ × ℕ × ℕ)) :
    chunks4 ((qs.map (fun q => [q.1, q.2.1, q.2.2.1, q.2.2.2])).flatten) =
      qs.map (fun q => [q.1, q.2.1, q.2.2.1, q.2.2.2]) := by
  induction qs with
  | nil => rfl
  | cons q rest ih => simp [chunks4, ih]

theorem flat4_length (qs : List (ℕ × ℕ × ℕ × ℕ)) :
    ((qs.map (fun q => [q.1, q.2.1, q.2.2.1, q.2.2.2])).flatten).length = 4 * qs.length := by
  induction qs with
  | nil => rfl
  | cons q rest ih => simp [ih]; ring

theorem monoFold_one (xs : List ℚ) : monoFold 1 xs = .ok xs := by
  unfold monoFold
  norm_num

theorem take_all_of_len {α : Type} (l : List α) (n : ℕ) (h : l.length = n) : l.take n = l := by
  subst h
  exact List.take_length ..

theorem decodeSamples_one (raw : List ℕ) :
    decodeSamples 1 raw = .ok (raw.map (fun (b : ℕ) => ((b : ℚ) - 128) / 128)) := by
  unfold decodeSamples
  norm_num

theorem decodeSamples_two (raw : List ℕ) (h : raw.length % 2 = 0) :
    decodeSamples 2 raw = .ok ((chunks2 raw).map (fun c => (leS c : ℚ) / 32768)) := by
  unfold decodeSamples
  norm_num [h]

theorem decodeSamples_three (raw : List ℕ) :
    decodeSamples 3 raw = .ok ((chunks3 raw).map (fun c => (leS c : ℚ) / 8388608)) := by
  unfold decodeSamples
  norm_num

theorem decodeSamples_four (raw : List ℕ) (h : raw.length % 4 = 0) :
    decodeSamples 4 raw = .ok ((chunks4 raw).map (fun c => (fl32Int (leS c) : ℚ) / 2147483648)) := by
  unfold decodeSamples
  norm_num [h]

theorem fl32Nat_small (n : ℕ) (hn : n ≤ 2 ^ 24) : fl32Nat n = n := by
  rcases Nat.lt_or_ge n (2 ^ 24) with h | h
  · unfold fl32Nat
    rw [if_pos h]
  · have he : n = 2 ^ 24 := Nat.le_antisymm hn h
    subst he
    decide

theorem fl32Int_small (z : ℤ) (h1 : -(2 ^ 24) ≤ z) (h2 : z ≤ 2 ^ 24) : fl32Int z = z := by
  unfold fl32Int
  split
  · rw [fl32Nat_small _ (by omega)]
    omega
  · rw [fl32Nat_small _ (by omega)]
    omega

theorem decodeSamples_other (w : ℕ) (raw : List ℕ)
    (h1 : w ≠ 1) (h2 : w ≠ 2) (h3 : w ≠ 3) (h4 : w ≠ 4) :
    decodeSamples w raw = .error .valueError := by
  unfold decodeSamples
  simp [h1, h2, h3, h4]

/-- Concrete mono 16-bit one-frame WAV file at 44100 Hz holding the sample 0. -/
def wav44k : WavFile := ⟨1, 2, 44100, 1, [0, 0]⟩

/-- C7 counterexample: the 32-bit sample 16777217 (bytes 1,0,0,1
little-endian) does not decode to the exact `value / 2147483648`: the
`astype(np.float32)` rounds 2^24 + 1 to 2^24 (ties to even) before the
division, so the decoded sample is 16777216 / 2147483648. -/
theorem c7_decode_f32_counterexample :
    leS [1, 0, 0, 1] = 16777217 ∧
    load_wav_file (.wellformed ⟨1, 4, 44100, 1, [1, 0, 0, 1]⟩) =
      .ok ([(16777216 : ℚ) / 2147483648], 44100) ∧
    ((16777216 : ℚ) / 2147483648) ≠ (16777217 : ℚ) / 2147483648 := by
  have hf : fl32Int (leS [1, 0, 0, 1]) = 16777216 := by decide
  refine ⟨by decide, ?_, by norm_num⟩
  norm_num [load_wav_file, load_wav_core, decodeSamples, monoFold, chunks4, hf]

/-- C7 amended: decode normalizes each sample by bit depth as: 8-bit unsigned
byte maps to `(value - 128) / 128.0` (a constant byte 128 yields all zeros),
16-bit signed little-endian maps to `value / 32768.0` (`-32768` yields exactly
`-1.0`), 24-bit three little-endian two's-complement bytes map to
`value / 8388608.0`, and any other bit depth is a decode error — all exactly
as claimed; but a 32-bit signed little-endian sample maps to
`float32(value) / 2147483648.0` (the int32 value rounded to 24 significant
bits before the exact division), which equals `value / 2147483648.0` only for
magnitudes up to 2^24. -/
theorem c7_decode_normalization :
    (∀ (sr : ℕ) (bs : List ℕ),
      load_wav_file (.wellformed ⟨1, 1, sr, bs.length, bs⟩) =
        .ok (bs.map (fun (b : ℕ) => ((b : ℚ) - 128) / 128), sr)) ∧
    (∀ (n sr : ℕ),
      load_wav_file (.wellformed ⟨1, 1, sr, n, List.replicate n 128⟩) =
        .ok (List.replicate n 0, sr)) ∧
    (∀ (sr : ℕ) (ps : List (ℕ × ℕ)),
      load_wav_file (.wellformed ⟨1, 2, sr, ps.length, (ps.map (fun p => [p.1, p.2])).flatten⟩) =
        .ok (ps.map (fun p => (leS [p.1, p.2] : ℚ) / 32768), sr)) ∧
    (∀ sr : ℕ, load_wav_file (.wellformed ⟨1, 2, sr, 1, [0, 128]⟩) = .ok ([-1], sr)) ∧
    (∀ (sr : ℕ) (ts : List (ℕ × ℕ × ℕ)),
      load_wav_file
          (.wellformed ⟨1, 3, sr, ts.length, (ts.map (fun t => [t.1, t.2.1, t.2.2])).flatten⟩) =
        .ok (ts.map (fun t => (leS [t.1, t.2.1, t.2.2] : ℚ) / 8388608), sr)) ∧
    (∀ (sr : ℕ) (qs : List (ℕ × ℕ × ℕ × ℕ)),
      load_wav_file
          (.wellformed
            ⟨1, 4, sr, qs.length, (qs.map (fun q => [q.1, q.2.1, q.2.2.1, q.2.2.2])).flatten⟩) =
        .ok (qs.map
          (fun q => (fl32Int (leS [q.1, q.2.1, q.2.2.1, q.2.2.2]) : ℚ) / 2147483648), sr)) ∧
    (∀ (ch w sr n : ℕ) (data : List ℕ), w ≠ 1 → w ≠ 2 → w ≠ 3 → w ≠ 4 →
      load_wav_file (.wellformed ⟨ch, w, sr, n, data⟩) = .error (.runtimeError .valueError)) ∧
    (∀ z : ℤ, -(2 ^ 24) ≤ z → z ≤ 2 ^ 24 → fl32Int z = z) := by
  have p1 : ∀ (sr : ℕ) (bs : List ℕ),
      load_wav_file (.wellformed ⟨1, 1, sr, bs.length, bs⟩) =
        .ok (bs.map (fun (b : ℕ) => ((b : ℚ) - 128) / 128), sr) := by
    intro sr bs
    have hcore : load_wav_core ⟨1, 1, sr, bs.length, bs⟩ =
        .ok (bs.map (fun (b : ℕ) => ((b : ℚ) - 128) / 128), sr) := by
      unfold load_wav_core
      dsimp only
      rw [take_all_of_len bs (bs.length * 1 * 1) (by ring), decodeSamples_one]
      simp [monoFold_one]
    simp [load_wav_file, hcore]
  refine ⟨p1, ?_, ?_, ?_, ?_, ?_, ?_, fun z h1 h2 => fl32Int_small z h1 h2⟩
  · intro n sr
    have h := p1 sr (List.replicate n 128)
    rw [List.length_replicate] at h
    rw [h]
    simp
  · intro sr ps
    have hmod : ((ps.map (fun p => [p.1, p.2])).flatten).length % 2 = 0 := by
      rw [flat2_length]
      exact Nat.mul_mod_right 2 _
    have hcore : load_wav_core ⟨1, 2, sr, ps.length, (ps.map (fun p => [p.1, p.2])).flatten⟩ =
        .ok (ps.map (fun p => (leS [p.1, p.2] : ℚ) / 32768), sr) := by
      unfold load_wav_core
      dsimp only
      rw [take_all_of_len _ (ps.length * 1 * 2) (by rw [flat2_length]; ring),
        decodeSamples_two _ hmod, chunks2_flat, List.map_map]
      simp [monoFold_one, Function.comp]
    simp [load_wav_file, hcore]
  · intro sr
    norm_num [load_wav_file, load_wav_core, decodeSamples, monoFold, chunks2, leS, leU]
  · intro sr ts
    have hcore : load_wav_core
        ⟨1, 3, sr, ts.length, (ts.map (fun t => [t.1, t.2.1, t.2.2])).flatten⟩ =
        .ok (ts.map (fun t => (leS [t.1, t.2.1, t.2.2] : ℚ) / 8388608), sr) := by
      unfold load_wav_core
      dsimp only
      rw [take_all_of_len _ (ts.length * 1 * 3) (by rw [flat3_length]; ring),
        decodeSamples_three, chunks3_flat, List.map_map]
      simp [monoFold_one, Function.comp]
    simp [load_wav_file, hcore]
  · intro sr qs
    have hmod : ((qs.map (fun q => [q.1, q.2.1, q.2.2.1, q.2.2.2])).flatten).length % 4 = 0 := by
      rw [flat4_length]
      exact Nat.mul_mod_right 4 _
    have hcore : load_wav_core
        ⟨1, 4, sr, qs.length, (qs.map (fun q => [q.1, q.2.1, q.2.2.1, q.2.2.2])).flatten⟩ =
        .ok (qs.map
          (fun q => (fl32Int (leS [q.1, q.2.1, q.2.2.1, q.2.2.2]) : ℚ) / 2147483648), sr) := by
      unfold load_wav_core
      dsimp only
      rw [take_all_of_len _ (qs.length * 1 * 4) (by rw [flat4_length]; ring),
        decodeSamples_four _ hmod, chunks4_flat, List.map_map]
      simp [monoFold_one, Function.comp]
    simp [load_wav_file, hcore]
  · intro ch w sr n data h1 h2 h3 h4
    have hcore : load_wav_core ⟨ch, w, sr, n, data⟩ = .error .valueError := by
      unfold load_wav_core
      dsimp only
      rw [decodeSamples_other w _ h1 h2 h3 h4]
    simp [load_wav_file, hcore]

/-- C7 witness: a 5-byte sample width is rejected with a `ValueError` wrapped
in the loader's `RuntimeError`, and the float32 conversion is the identity on
the in-range value -32768. -/
theorem c7_decode_normalization_witness :
    load_wav_file (.wellformed ⟨1, 5, 8000, 4, [0, 0, 0, 0]⟩) =
      .error (.runtimeError .valueError) ∧
    fl32Int (-32768) = -32768 :=
  ⟨c7_decode_normalization.2.2.2.2.2.2.1 1 5 8000 4 [0, 0, 0, 0]
      (by decide) (by decide) (by decide) (by decide),
    c7_decode_normalization.2.2.2.2.2.2.2 (-32768) (by norm_num) (by norm_num)⟩

/-- C6: for every decoded WAV source, the effective target sample rate is
48000 Hz always in AUDIO mode; in SPEECH mode it is the original rate itself
when the original rate is at least 16000 Hz and 16000 Hz otherwise. -/
theorem c6_target_sample_rate (sr : ℕ) :
    get_target_sample_rate .audio sr = 48000 ∧
    (16000 ≤ sr → get_target_sample_rate .speech sr = sr) ∧
    (sr < 16000 → get_target_sample_rate .speech sr = 16000) := by
  refine ⟨rfl, fun h => ?_, fun h => ?_⟩
  · simp [get_target_sample_rate, h]
  · simp [get_target_sample_rate, Nat.not_le.mpr h]

/-- C6 witness: 8000 Hz maps to 16000 Hz and 44100 Hz maps to 44100 Hz in
SPEECH mode. -/
theorem c6_target_sample_rate_witness :
    get_target_sample_rate .speech 44100 = 44100 ∧
    get_target_sample_rate .speech 8000 = 16000 :=
  ⟨(c6_target_sample_rate 44100).2.1 (by decide), (c6_target_sample_rate 8000).2.2 (by decide)⟩

/-- C1 counterexample: in AUDIO mode, requesting the non-default rate
44100 Hz twice yields two distinct engine handles and two further Configure
(`Create`) calls — there is no cache keyed by (mode, sample rate). -/
theorem c1_engine_cache_counterexample :
    (get_api_for_sample_rate (get_api_for_sample_rate (initState .audio) 44100).2 44100).1 ≠
      (get_api_for_sample_rate (initState .audio) 44100).1 ∧
    (get_api_for_sample_rate (get_api_for_sample_rate (initState .audio) 44100).2 44100).2.createCalls =
      (initState .audio).createCalls + 2 := by
  decide

/-- C1 amended: `_get_api_for_sample_rate` reuses the construction-time handle
without a further Configure call exactly when the requested rate equals the
stored config's rate (in particular for (AUDIO, 48000) on a fresh AUDIO
instance); for any other rate, every call creates a brand-new handle and
invokes Configure again. -/
theorem c1_engine_handle_reuse (s : ViSQOLState) (sr : ℕ) :
    (sr = s.configSampleRate →
      get_api_for_sample_rate s sr = (s.defaultApi, s)) ∧
    (sr ≠ s.configSampleRate →
      (get_api_for_sample_rate s sr).1 = s.nextId ∧
      (get_api_for_sample_rate (get_api_for_sample_rate s sr).2 sr).1 = s.nextId + 1 ∧
      (get_api_for_sample_rate (get_api_for_sample_rate s sr).2 sr).2.createCalls =
        s.createCalls + 2) := by
  constructor
  · intro h
    simp [get_api_for_sample_rate, h]
  · intro h
    simp [get_api_for_sample_rate, h]

/-- C1 witness: on a fresh AUDIO instance, (AUDIO, 48000) twice returns the
construction-time handle with the single construction-time Configure call
still the only one; (AUDIO, 44100) twice gives handles 1 then 2 and three
total Configure calls. -/
theorem c1_engine_handle_reuse_witness :
    get_api_for_sample_rate (initState .audio) 48000 = ((initState .audio).defaultApi, initState .audio) ∧
    (get_api_for_sample_rate (initState .audio) 44100).1 = (initState .audio).nextId ∧
    (get_api_for_sample_rate (get_api_for_sample_rate (initState .audio) 44100).2 44100).1 =
      (initState .audio).nextId + 1 :=
  ⟨(c1_engine_handle_reuse (initState .audio) 48000).1 (by decide),
    ((c1_engine_handle_reuse (initState .audio) 44100).2 (by decide)).1,
    ((c1_engine_handle_reuse (initState .audio) 44100).2 (by decide)).2.1⟩

/-- C9 counterexample: resampling the single-sample buffer `[5]` from
r1 = 2^55 to r2 = 2^55 - 1 < r1 yields `[5]`, not the empty buffer: the
binary64 quotient r2 / r1 rounds to exactly 1.0, so `int(r2 / r1)` is 1 even
though r2 < r1. -/
theorem c9_single_sample_counterexample :
    2 ^ 55 - 1 < 2 ^ 55 ∧
    resampleList [5] (2 ^ 55) (2 ^ 55 - 1) = [5] ∧
    resampleList [5] (2 ^ 55) (2 ^ 55 - 1) ≠ [] := by
  refine ⟨by norm_num, by decide, by decide⟩

theorem resampleList_single (a : ℚ) (r1 r2 : ℕ) (h : r1 ≠ r2) :
    resampleList [a] r1 r2 = List.replicate (resampleLen 1 r1 r2) a := by
  unfold resampleList
  rw [if_neg h]
  have hv : ∀ j : ℕ, interpAt [a] (linVal 1 (resampleLen 1 r1 r2) j) = a := by
    intro j
    rw [linVal_one, interpAt_zero]
    rfl
  calc (List.range (resampleLen ([a] : List ℚ).length r1 r2)).map
        (fun j => interpAt [a] (linVal ([a] : List ℚ).length (resampleLen ([a] : List ℚ).length r1 r2) j))
      = (List.range (resampleLen 1 r1 r2)).map (fun _ => a) := by
        simp only [List.length_singleton]
        exact List.map_congr_left (fun j _ => hv j)
    _ = List.replicate (resampleLen 1 r1 r2) a := by
        rw [List.map_const']
        simp

/-- C9 amended: resampling a single-sample buffer between distinct rates is
deterministic: the output is the input sample repeated
`int(1 * (r2 / r1))` times (the binary64 quotient truncated, `resampleLen 1`),
which is empty for every practical downsampling pair such as 48000 → 16000,
though not for pathological rates beyond 2^54. -/
theorem c9_single_sample_resample (a : ℚ) (r1 r2 : ℕ) (h : r1 ≠ r2) :
    resampleList [a] r1 r2 = List.replicate (resampleLen 1 r1 r2) a :=
  resampleList_single a r1 r2 h

/-- C9 witness: a single sample downsampled 48000 → 16000 gives the empty
buffer (the repeat count is 0). -/
theorem c9_single_sample_resample_witness :
    resampleList [3] 48000 16000 = List.replicate (resampleLen 1 48000 16000) 3 ∧
    resampleLen 1 48000 16000 = 0 :=
  ⟨c9_single_sample_resample 3 48000 16000 (by decide), by decide⟩

theorem save_payload_length (buf : List ℚ) :
    ((buf.map (fun v => le16Bytes (encodeSample v))).flatten).length = 2 * buf.length := by
  induction buf with
  | nil => rfl
  | cons v rest ih =>
    have hl : (le16Bytes (encodeSample v)).length = 2 := rfl
    simp only [List.map_cons, List.flatten_cons, List.length_append, hl, ih, List.length_cons]
    ring

/-- C4 counterexample: the sample value 2.0 is encoded as -2 (truncation and
16-bit wraparound of 65534), not as the saturated 32767 that
round-then-saturate would produce: samples do wrap around. -/
theorem c4_encode_wraparound_counterexample :
    encodeSample 2 = -2 ∧
    specRoundSaturate 2 = 32767 ∧
    encodeSample 2 ≠ specRoundSaturate 2 := by
  refine ⟨?_, ?_, ?_⟩ <;>
    norm_num [encodeSample, specRoundSaturate, ratTruncZ, ratFloorZ, toInt16]

/-- C4 amended: encode always emits mono 16-bit PCM at the requested rate,
two little-endian bytes per input sample, but converts each sample by
truncating `value * 32767` toward zero and wrapping it modulo 2^16 into the
signed 16-bit range (the numpy `astype(np.int16)` cast), not by rounding and
saturating; the stored integer always lies in [-32768, 32767] only because of
that wraparound. -/
theorem c4_encode_truncates_and_wraps (buf : List ℚ) (sr : ℕ) (v : ℚ) :
    (save_wav_file buf sr).nChannels = 1 ∧
    (save_wav_file buf sr).sampleWidth = 2 ∧
    (save_wav_file buf sr).sampleRate = sr ∧
    (save_wav_file buf sr).payload = (buf.map (fun x => le16Bytes (encodeSample x))).flatten ∧
    (save_wav_file buf sr).payload.length = 2 * buf.length ∧
    encodeSample v = toInt16 (ratTruncZ (v * 32767)) ∧
    -32768 ≤ encodeSample v ∧ encodeSample v ≤ 32767 :=
  ⟨rfl, rfl, rfl, rfl, save_payload_length buf, rfl,
    (toInt16_bounds (ratTruncZ (v * 32767))).1, (toInt16_bounds (ratTruncZ (v * 32767))).2⟩

/-- C3 counterexample: a batch whose second pair has a malformed reference
aborts with a `RuntimeError` chaining the loader's `RuntimeError` chaining the
`wave` module's container error — the raised exception is not the container
error itself, and no results are returned. -/
theorem c3_batch_error_wrapping_counterexample :
    measure_batch (initState .audio)
        [(.array [0], .array [0]), (.file .malformed, .file (.wellformed wav44k))] =
      .error (.runtimeError (.runtimeError .waveError)) ∧
    PyErr.runtimeError (.runtimeError .waveError) ≠ .waveError := by
  refine ⟨?_, by decide⟩
  norm_num [measure_batch, measure_native, load_audio_with_sr, load_wav_file,
    get_api_for_sample_rate, initState, defaultSampleRate]

/-- C3 amended: `measure_batch` processes pairs strictly in input order; the
first failing `measure` call aborts the batch with a `RuntimeError` that
chains the underlying error (so a malformed WAV header surfaces as a
`RuntimeError` wrapping the container error, not as the container error
itself), no results are returned for any pair, and no placeholder score is
synthesized; on success every pair contributes one result, in order. -/
theorem c3_batch_fail_fast (s s1 : ViSQOLState) (r d : AudioInput)
    (rest : List (AudioInput × AudioInput)) (e : PyErr) (tr : MeasureTrace) :
    measure_batch s [] = .ok ([], s) ∧
    (measure_native s r d = .error e →
      measure_batch s ((r, d) :: rest) = .error (.runtimeError e)) ∧
    (measure_native s r d = .ok (tr, s1) →
      measure_batch s ((r, d) :: rest) =
        match measure_batch s1 rest with
        | .error e2 => .error e2
        | .ok (trs, s2) => .ok (tr :: trs, s2)) := by
  refine ⟨rfl, fun h => ?_, fun h => ?_⟩ <;> simp [measure_batch, h]

/-- C3 witness: the failing-head case on a concrete malformed pair, and the
succeeding-head case on a concrete good pair followed by the empty tail. -/
theorem c3_batch_fail_fast_witness :
    measure_batch (initState .audio) [(.file .malformed, .array [0])] =
      .error (.runtimeError (.runtimeError .waveError)) ∧
    measure_batch (initState .audio) [(.array [0], .array [0])] =
      .ok ([⟨[0], [0], 48000, 48000, 0⟩], initState .audio) := by
  have h1 : measure_native (initState .audio) (.file .malformed) (.array [0]) =
      .error (.runtimeError .waveError) := by
    norm_num [measure_native, load_audio_with_sr, load_wav_file]
  have h2 : measure_native (initState .audio) (.array [0]) (.array [0]) =
      .ok (⟨[0], [0], 48000, 48000, 0⟩, initState .audio) := by
    norm_num [measure_native, load_audio_with_sr, get_api_for_sample_rate, initState,
      defaultSampleRate]
  constructor
  · exact (c3_batch_fail_fast (initState .audio) (initState .audio) (.file .malformed)
      (.array [0]) [] (.runtimeError .waveError) ⟨[0], [0], 48000, 48000, 0⟩).2.1 h1
  · have h3 := (c3_batch_fail_fast (initState .audio) (initState .audio) (.array [0])
      (.array [0]) [] .waveError ⟨[0], [0], 48000, 48000, 0⟩).2.2 h2
    rw [h3]
    rfl

/-- C10: `measure` never mutates the stored configuration or the default
engine handle: after any successful measure call the mode, the configured
default sample rate, and the construction-time handle are unchanged, and a
measurement whose reference lands at a non-default rate uses a freshly
created handle distinct from the stored one. -/
theorem c10_measure_preserves_state (s : ViSQOLState) (ref deg : AudioInput)
    (tr : MeasureTrace) (s1 : ViSQOLState)
    (h : measure_native s ref deg = .ok (tr, s1)) :
    s1.mode = s.mode ∧ s1.configSampleRate = s.configSampleRate ∧
    s1.defaultApi = s.defaultApi ∧
    (s.defaultApi < s.nextId → tr.refSr ≠ s.configSampleRate → tr.api ≠ s.defaultApi) := by
  unfold measure_native at h
  cases hre : load_audio_with_sr s ref with
  | error e =>
    rw [hre] at h
    simp at h
  | ok pr =>
    obtain ⟨rb, rsr⟩ := pr
    cases hde : load_audio_with_sr s deg with
    | error e =>
      rw [hre, hde] at h
      simp at h
    | ok pd =>
      obtain ⟨db, dsr⟩ := pd
      rw [hre, hde] at h
      simp only [Except.ok.injEq, Prod.mk.injEq] at h
      obtain ⟨htr, hs1⟩ := h
      subst htr
      subst hs1
      unfold get_api_for_sample_rate
      by_cases hsr : rsr = s.configSampleRate
      · rw [if_pos hsr]
        exact ⟨rfl, rfl, rfl, fun _ hne => absurd hsr hne⟩
      · rw [if_neg hsr]
        exact ⟨rfl, rfl, rfl, fun hlt _ => ne_of_gt hlt⟩

/-- C10 witness: a SPEECH-mode measurement of two 44100 Hz files lands at the
non-default rate 44100; the stored mode, config rate and default handle are
unchanged, and the handle used is the fresh one. -/
theorem c10_measure_preserves_state_witness :
    (⟨ViSQOLMode.speech, 16000, 0, 2, 2⟩ : ViSQOLState).mode = (initState .speech).mode ∧
    (⟨ViSQOLMode.speech, 16000, 0, 2, 2⟩ : ViSQOLState).configSampleRate =
      (initState .speech).configSampleRate ∧
    (⟨ViSQOLMode.speech, 16000, 0, 2, 2⟩ : ViSQOLState).defaultApi =
      (initState .speech).defaultApi ∧
    (⟨[0], [0], 44100, 44100, 1⟩ : MeasureTrace).api ≠ (initState .speech).defaultApi := by
  have hm : measure_native (initState .speech) (.file (.wellformed wav44k))
      (.file (.wellformed wav44k)) =
      .ok (⟨[0], [0], 44100, 44100, 1⟩, ⟨ViSQOLMode.speech, 16000, 0, 2, 2⟩) := by
    norm_num [measure_native, load_audio_with_sr, load_wav_file, load_wav_core, decodeSamples,
      monoFold, chunks2, leS, leU, get_target_sample_rate, get_api_for_sample_rate, initState,
      defaultSampleRate, wav44k]
  have h := c10_measure_preserves_state (initState .speech) _ _ _ _ hm
  exact ⟨h.1, h.2.1, h.2.2.1, h.2.2.2 (by decide) (by decide)⟩
